import Mathlib

/-!
Shallow embedding of the fleet-management service in `src/javascriptcode.js`
(an Express app with three in-memory maps: `vehicles`, `telemetryData`,
`alerts`).  JavaScript values are modelled as follows:

* `uuidv4()` id generation is modelled by a natural-number counter `nextId`
  (fresh ids, which is the only property the code relies on);
* `new Date()` timestamps are modelled by a natural-number clock `clock`
  that ticks on every object creation (server time is monotone);
* a numeric field of a request body that may be `null` or missing is
  modelled by `JsVal` (`null`, `undefined`, or a number); JS comparison
  semantics (`null` coerces to `0`, comparisons with `undefined`/NaN are
  false) are modelled by `jsGT`/`jsLT`;
* the `location` object and `engineStatus` are stored verbatim by the code
  and never inspected, so they are modelled as opaque strings;
* the `Vehicle` payload (manufacturer, model, ...) is never read by any
  telemetry or alert route, which consult only key membership in the
  `vehicles` map, so the registry is modelled as its key set.
-/

/-- A JavaScript value appearing in a numeric telemetry field:
`null`, `undefined` (absent field), or a number. -/
inductive JsVal where
  | null
  | undef
  | num (v : Int)
deriving DecidableEq, Repr

/-- JS `x > b` for a numeric bound: `null` coerces to 0,
comparisons against `undefined` (NaN) are false. -/
def jsGT (x : JsVal) (b : Int) : Bool :=
  match x with
  | .num v => b < v
  | .null => b < 0
  | .undef => false

/-- JS `x < b` for a numeric bound: `null` coerces to 0,
comparisons against `undefined` (NaN) are false. -/
def jsLT (x : JsVal) (b : Int) : Bool :=
  match x with
  | .num v => v < b
  | .null => 0 < b
  | .undef => false

/-- How a `JsVal` prints inside a JS template literal. -/
def JsVal.render : JsVal → String
  | .null => "null"
  | .undef => "undefined"
  | .num v => toString v

/-- The telemetry fields taken from a request body
(`javascriptcode.js` line 340). -/
structure TelemIn where
  speed : JsVal
  fuelLevel : JsVal
  batteryLevel : JsVal
  location : String
  engineStatus : String
deriving DecidableEq, Repr

/-- `class TelemetryRecord` (lines 45-56): id from `uuidv4()`,
timestamp from `new Date()`. -/
structure TelemetryRecord where
  id : Nat
  vin : String
  speed : JsVal
  fuelLevel : JsVal
  batteryLevel : JsVal
  location : String
  engineStatus : String
  timestamp : Nat
deriving DecidableEq, Repr

/-- `class Alert` (lines 59-69): id from `uuidv4()`, timestamp from
`new Date()`, initial status `"Active"`. -/
structure Alert where
  id : Nat
  vin : String
  type : String
  message : String
  severity : String
  timestamp : Nat
  status : String
deriving DecidableEq, Repr

/-- The id- and timestamp-independent content of an alert
(what `generateAlerts` determines from the reading alone). -/
structure AlertCore where
  vin : String
  type : String
  message : String
  severity : String
deriving DecidableEq, Repr

/-- Project an `Alert` to its content. -/
def Alert.core (a : Alert) : AlertCore :=
  ⟨a.vin, a.type, a.message, a.severity⟩

/-- The whole in-memory state: the three module-level maps plus the
id counter and the clock (see the header comment). -/
structure SysState where
  vehicles : String → Bool
  telemetryData : String → Option (List TelemetryRecord)
  alerts : List Alert
  nextId : Nat
  clock : Nat

/-- The state at process start: all three maps empty. -/
def initState : SysState :=
  { vehicles := fun _ => false
    telemetryData := fun _ => none
    alerts := []
    nextId := 0
    clock := 0 }

/-- Condition of the speed-violation rule (line 76): `telemetry.speed > 80`. -/
def speedCheck (t : TelemetryRecord) : Bool := jsGT t.speed 80

/-- Condition of the low-fuel rule (line 88):
`telemetry.fuelLevel !== null && telemetry.fuelLevel < 15`. -/
def fuelCheck (t : TelemetryRecord) : Bool :=
  t.fuelLevel != JsVal.null && jsLT t.fuelLevel 15

/-- Condition of the low-battery rule (line 100):
`telemetry.batteryLevel !== null && telemetry.batteryLevel < 15`. -/
def batteryCheck (t : TelemetryRecord) : Bool :=
  t.batteryLevel != JsVal.null && jsLT t.batteryLevel 15

/-- Message of a speed-violation alert (line 80). -/
def speedMsg (t : TelemetryRecord) : String :=
  s!"Vehicle {t.vin} exceeded speed limit: {t.speed.render} km/h"

/-- Message of a low-fuel alert (line 92). -/
def fuelMsg (t : TelemetryRecord) : String :=
  s!"Vehicle {t.vin} has low fuel: {t.fuelLevel.render}%"

/-- Message of a low-battery alert (line 104). -/
def batteryMsg (t : TelemetryRecord) : String :=
  s!"Vehicle {t.vin} has low battery: {t.batteryLevel.render}%"

/-- Content of the speed-violation alert produced for `t`. -/
def speedCore (t : TelemetryRecord) : AlertCore :=
  ⟨t.vin, "SPEED_VIOLATION", speedMsg t, "High"⟩

/-- Content of the low-fuel alert produced for `t`. -/
def fuelCore (t : TelemetryRecord) : AlertCore :=
  ⟨t.vin, "LOW_FUEL", fuelMsg t, "Medium"⟩

/-- Content of the low-battery alert produced for `t`. -/
def batteryCore (t : TelemetryRecord) : AlertCore :=
  ⟨t.vin, "LOW_BATTERY", batteryMsg t, "Medium"⟩

/-- `new Alert(...)`, `alerts.set(alert.id, alert)`,
`alertsGenerated.push(alert)`: create one alert, record it in the ledger
and append it to the accumulator of generated alerts. -/
def pushAlertAcc (acc : SysState × List Alert) (vin typ msg sev : String) :
    SysState × List Alert :=
  let s := acc.1
  let a : Alert :=
    { id := s.nextId, vin := vin, type := typ, message := msg,
      severity := sev, timestamp := s.clock, status := "Active" }
  ({ s with
      alerts := s.alerts ++ [a],
      nextId := s.nextId + 1,
      clock := s.clock + 1 },
    acc.2 ++ [a])

/-- `function generateAlerts(telemetry)` (lines 72-112): the three rules are
checked in sequence — speed, then fuel, then battery — each firing
independently; every fired alert is stored in the `alerts` map and collected
in `alertsGenerated`. -/
def generateAlerts (s : SysState) (telemetry : TelemetryRecord) :
    SysState × List Alert :=
  let acc1 :=
    if speedCheck telemetry then
      pushAlertAcc (s, []) telemetry.vin "SPEED_VIOLATION"
        (speedMsg telemetry) "High"
    else (s, [])
  let acc2 :=
    if fuelCheck telemetry then
      pushAlertAcc acc1 telemetry.vin "LOW_FUEL" (fuelMsg telemetry) "Medium"
    else acc1
  let acc3 :=
    if batteryCheck telemetry then
      pushAlertAcc acc2 telemetry.vin "LOW_BATTERY"
        (batteryMsg telemetry) "Medium"
    else acc2
  acc3

/-- The list of alert contents `generateAlerts` produces for a reading:
the three rules fire independently, in speed/fuel/battery order. -/
def generateAlertCores (t : TelemetryRecord) : List AlertCore :=
  (if speedCheck t then [speedCore t] else []) ++
    (if fuelCheck t then [fuelCore t] else []) ++
      (if batteryCheck t then [batteryCore t] else [])

/-- The error outcomes of the modelled routes (§7 taxonomy):
404 "Vehicle not found", 404 "No telemetry data found", 404 "Alert not
found". -/
inductive ApiErr where
  | unknownVehicle
  | noData
  | notFound
deriving DecidableEq, Repr

/-- `new TelemetryRecord(vin, ...)` (lines 342-344): id from the uuid
counter, timestamp from the clock. -/
def mkRecord (s : SysState) (vin : String) (body : TelemIn) :
    TelemetryRecord :=
  { id := s.nextId, vin := vin, speed := body.speed,
    fuelLevel := body.fuelLevel, batteryLevel := body.batteryLevel,
    location := body.location, engineStatus := body.engineStatus,
    timestamp := s.clock }

/-- `if (!telemetryData.has(vin)) telemetryData.set(vin, []);`
`telemetryData.get(vin).push(telemetry)` (lines 346-350). -/
def appendTelemetry (s : SysState) (vin : String) (r : TelemetryRecord) :
    SysState :=
  { s with telemetryData := fun v =>
      if v = vin then some ((s.telemetryData vin).getD [] ++ [r])
      else s.telemetryData v }

/-- Shared body of `POST /api/telemetry/:vin` (lines 329-367) and of the
per-record branch of `POST /api/telemetry/batch` (lines 383-411), which
duplicate it: reject an unregistered VIN with 404, otherwise create the
record, append it to the vehicle's history and run `generateAlerts`. -/
def ingestOne (s : SysState) (vin : String) (body : TelemIn) :
    SysState × Except ApiErr (TelemetryRecord × List Alert) :=
  if s.vehicles vin then
    let telemetry := mkRecord s vin body
    let s1 := { s with nextId := s.nextId + 1, clock := s.clock + 1 }
    let s2 := appendTelemetry s1 vin telemetry
    let res := generateAlerts s2 telemetry
    (res.1, .ok (telemetry, res.2))
  else
    (s, .error .unknownVehicle)

/-- `POST /api/telemetry/:vin` (lines 329-367). -/
def postTelemetry (s : SysState) (vin : String) (body : TelemIn) :
    SysState × Except ApiErr (TelemetryRecord × List Alert) :=
  ingestOne s vin body

/-- `POST /api/telemetry/batch` (lines 370-426): `forEach` over the records;
a known VIN is ingested exactly as in the single-vehicle route and its
alerts are flattened into `allAlerts`; an unknown VIN contributes a
per-item failure and the loop continues.  A result item is
`(vin, some record)` on success and `(vin, none)` on failure.
`batchStep` is one iteration of the `forEach`; `postTelemetryBatch` folds
it over the batch. -/
def batchStep
    (acc : SysState × List (String × Option TelemetryRecord) × List Alert)
    (rec : String × TelemIn) :
    SysState × List (String × Option TelemetryRecord) × List Alert :=
  match ingestOne acc.1 rec.1 rec.2 with
  | (s2, .ok r) => (s2, acc.2.1 ++ [(rec.1, some r.1)], acc.2.2 ++ r.2)
  | (s2, .error _) => (s2, acc.2.1 ++ [(rec.1, none)], acc.2.2)

def postTelemetryBatch (s : SysState) (records : List (String × TelemIn)) :
    SysState × List (String × Option TelemetryRecord) × List Alert :=
  records.foldl batchStep (s, [], [])

/-- The comparator of line 441,
`(a, b) => new Date(b.timestamp) - new Date(a.timestamp)`:
`a` sorts before `b` when `b.timestamp ≤ a.timestamp` (descending). -/
def tsDesc : TelemetryRecord → TelemetryRecord → Prop :=
  fun a b => b.timestamp ≤ a.timestamp

instance : DecidableRel tsDesc :=
  fun a b => Nat.decLe b.timestamp a.timestamp

instance : IsTotal TelemetryRecord tsDesc :=
  ⟨fun a b => Nat.le_total b.timestamp a.timestamp⟩

instance : IsTrans TelemetryRecord tsDesc :=
  ⟨fun _ _ _ h1 h2 => Nat.le_trans h2 h1⟩

/-- `GET /api/telemetry/:vin` (lines 429-463).  `Array.prototype.sort` is a
stable in-place sort, modelled here by the stable `insertionSort`: the
sorted array is written back into the `telemetryData` map (when the map has
an entry; `|| []` produces a fresh array that is not written back).
`req.query.limit`/`offset` are query strings, so any present value — `"0"`
included — is truthy and triggers its `slice`; an absent one leaves the
list untouched. -/
def historyQuery (s : SysState) (vin : String) (limit offset : Option Nat) :
    SysState × Except ApiErr (List TelemetryRecord × Nat) :=
  if s.vehicles vin then
    match s.telemetryData vin with
    | some arr =>
        let sorted := List.insertionSort tsDesc arr
        let s1 := { s with telemetryData := fun v =>
          if v = vin then some sorted else s.telemetryData v }
        let afterOffset := match offset with
          | some k => sorted.drop k
          | none => sorted
        let afterLimit := match limit with
          | some k => afterOffset.take k
          | none => afterOffset
        (s1, .ok (afterLimit, arr.length))
    | none =>
        let afterOffset := match offset with
          | some k => ([] : List TelemetryRecord).drop k
          | none => []
        let afterLimit := match limit with
          | some k => afterOffset.take k
          | none => afterOffset
        (s, .ok (afterLimit, 0))
  else (s, .error .unknownVehicle)

/-- `GET /api/telemetry/:vin/latest` (lines 466-497): 404 for an unknown
VIN; otherwise the last element of the stored array,
`vehicleTelemetry[vehicleTelemetry.length - 1]`, or `NoData` when the
array is empty. -/
def latestQuery (s : SysState) (vin : String) :
    Except ApiErr TelemetryRecord :=
  if s.vehicles vin then
    match ((s.telemetryData vin).getD []).getLast? with
    | some r => .ok r
    | none => .error .noData
  else .error .unknownVehicle

/-- `PUT /api/alerts/:alertId` (lines 566-591): 404 and no change when the
id is absent from the `alerts` map; otherwise
`if (req.body.status) alert.status = req.body.status` — a falsy status
(absent or `""`, modelled as `""`) leaves the alert unchanged, any other
string is assigned unconditionally. -/
def putAlertStatus (s : SysState) (alertId : Nat) (newStatus : String) :
    SysState × Except ApiErr Alert :=
  match s.alerts.find? (fun a => a.id = alertId) with
  | none => (s, .error .notFound)
  | some a =>
      let a2 := if newStatus ≠ "" then { a with status := newStatus } else a
      ({ s with alerts :=
          s.alerts.map (fun b => if b.id = alertId then a2 else b) },
        .ok a2)

/-- `POST /api/vehicles` (lines 154-194), reduced to its effect on the map
keys: 409 and no change when the VIN exists, otherwise `vehicles.set` and
`telemetryData.set(vin, [])`.  (The vehicle payload is never read by the
modelled routes.) -/
def createVehicle (s : SysState) (vin : String) : SysState × Bool :=
  if s.vehicles vin then (s, false)
  else
    ({ s with
        vehicles := fun v => if v = vin then true else s.vehicles v,
        telemetryData := fun v =>
          if v = vin then some [] else s.telemetryData v },
      true)

/-- `DELETE /api/vehicles/:vin` (lines 301-324): 404 when the VIN is
unknown; otherwise `vehicles.delete(vin)` and `telemetryData.delete(vin)`
— the `alerts` map is left untouched. -/
def deleteVehicle (s : SysState) (vin : String) : SysState × Bool :=
  if s.vehicles vin then
    ({ s with
        vehicles := fun v => if v = vin then false else s.vehicles v,
        telemetryData := fun v => if v = vin then none else s.telemetryData v },
      true)
  else (s, false)

/-! ### Concrete readings used by the rule-engine claims -/

/-- A reading with speed 85, fuel 50, battery 50 (§8, first rule-engine
property). -/
def t85 : TelemetryRecord :=
  { id := 0, vin := "VIN1", speed := .num 85, fuelLevel := .num 50,
    batteryLevel := .num 50, location := "loc", engineStatus := "Running",
    timestamp := 0 }

/-- A reading with fuel 10, battery absent, speed 30 (§8). -/
def t10 : TelemetryRecord :=
  { id := 0, vin := "VIN1", speed := .num 30, fuelLevel := .num 10,
    batteryLevel := .undef, location := "loc", engineStatus := "Running",
    timestamp := 0 }

/-- A speeding reading with neither fuel nor battery data. -/
def tAbs : TelemetryRecord :=
  { id := 0, vin := "VIN1", speed := .num 200, fuelLevel := .undef,
    batteryLevel := .undef, location := "loc", engineStatus := "Running",
    timestamp := 0 }

/-! ### C7: the spec's configurable Rule Engine -/

/-- Modelled from the spec: §4.2's construction-time configuration object
`{speedLimit, lowFuelThreshold, lowBatteryThreshold}`.  No such object
exists anywhere in `src/javascriptcode.js`. -/
structure RuleConfig where
  speedLimit : Int
  lowFuelThreshold : Int
  lowBatteryThreshold : Int
deriving DecidableEq, Repr

/-- Modelled from the spec: the defaults 80 / 15 / 15 of §4.2. -/
def defaultRuleConfig : RuleConfig :=
  { speedLimit := 80, lowFuelThreshold := 15, lowBatteryThreshold := 15 }

/-- Modelled from the spec: a Rule Engine evaluating each reading against
the *configured* thresholds (§4.2's rule table with configured bounds). -/
def generateAlertCoresCfg (cfg : RuleConfig) (t : TelemetryRecord) :
    List AlertCore :=
  (if jsGT t.speed cfg.speedLimit then [speedCore t] else []) ++
    (if t.fuelLevel != JsVal.null && jsLT t.fuelLevel cfg.lowFuelThreshold
      then [fuelCore t] else []) ++
      (if t.batteryLevel != JsVal.null &&
          jsLT t.batteryLevel cfg.lowBatteryThreshold
        then [batteryCore t] else [])

/-- A one-alert ledger used to witness C6: the alert is already Resolved. -/
def sLedger : SysState :=
  { initState with
      alerts := [{ id := 0, vin := "VIN1", type := "SPEED_VIOLATION",
                   message := "m", severity := "High", timestamp := 0,
                   status := "Resolved" }] }

/-! ### Auxiliary definitions for the store claims -/

/-- A sequence of `POST /api/telemetry/:vin` submissions for one vehicle
(responses discarded). -/
def ingestMany (s : SysState) (vin : String) (inputs : List TelemIn) :
    SysState :=
  inputs.foldl (fun st inp => (postTelemetry st vin inp).1) s

/-- Every stored reading was created before the current clock value — true
of every state the server can actually reach, since records are stamped
with the clock at creation. -/
def clockOK (s : SysState) : Prop :=
  ∀ v : String, ∀ r ∈ (s.telemetryData v).getD [], r.timestamp < s.clock

/-- Strictly-descending timestamp order. -/
def tsLT : TelemetryRecord → TelemetryRecord → Prop :=
  fun a b => b.timestamp < a.timestamp

instance : IsAntisymm TelemetryRecord tsLT :=
  ⟨fun a b h1 h2 => by
    have ha : b.timestamp < a.timestamp := h1
    have hb : a.timestamp < b.timestamp := h2
    omega⟩

/-! ### Concrete states used by the store witnesses -/

/-- A stored reading with timestamp 5. -/
def wrA : TelemetryRecord :=
  { id := 10, vin := "A", speed := .num 50, fuelLevel := .num 50,
    batteryLevel := .num 50, location := "l", engineStatus := "Running",
    timestamp := 5 }

/-- A stored reading with timestamp 2. -/
def wrB : TelemetryRecord :=
  { id := 11, vin := "A", speed := .num 60, fuelLevel := .num 40,
    batteryLevel := .num 40, location := "l", engineStatus := "Running",
    timestamp := 2 }

/-- A stored reading with timestamp 9. -/
def wrC : TelemetryRecord :=
  { id := 12, vin := "A", speed := .num 70, fuelLevel := .num 30,
    batteryLevel := .num 30, location := "l", engineStatus := "Running",
    timestamp := 9 }

/-- A state with one vehicle `"A"` whose history holds three readings in
non-chronological order. -/
def csHist : SysState :=
  { vehicles := fun v => v == "A"
    telemetryData := fun v => if v == "A" then some [wrA, wrB, wrC] else none
    alerts := []
    nextId := 20
    clock := 20 }

/-- A stored reading with timestamp 0. -/
def rEarly : TelemetryRecord :=
  { id := 0, vin := "A", speed := .num 10, fuelLevel := .num 90,
    batteryLevel := .num 90, location := "l", engineStatus := "Running",
    timestamp := 0 }

/-- A stored reading with timestamp 1. -/
def rLate : TelemetryRecord :=
  { id := 1, vin := "A", speed := .num 20, fuelLevel := .num 80,
    batteryLevel := .num 80, location := "l", engineStatus := "Running",
    timestamp := 1 }

/-- A state with one vehicle `"A"` whose two readings were appended in
increasing timestamp order. -/
def cs10 : SysState :=
  { vehicles := fun v => v == "A"
    telemetryData := fun v => if v == "A" then some [rEarly, rLate] else none
    alerts := []
    nextId := 2
    clock := 2 }

/-- A state with one registered vehicle `"A"` and no telemetry yet. -/
def csEmpty : SysState :=
  { vehicles := fun v => v == "A"
    telemetryData := fun v => if v == "A" then some [] else none
    alerts := []
    nextId := 0
    clock := 0 }

/-- A telemetry submission body (speeding). -/
def inp1 : TelemIn :=
  { speed := .num 85, fuelLevel := .num 50, batteryLevel := .num 50,
    location := "l", engineStatus := "Running" }

/-- A telemetry submission body (normal). -/
def inp2 : TelemIn :=
  { speed := .num 40, fuelLevel := .num 90, batteryLevel := .num 90,
    location := "l", engineStatus := "Idle" }

/-- A telemetry submission body (low fuel). -/
def inpFuel : TelemIn :=
  { speed := .num 30, fuelLevel := .num 10, batteryLevel := .num 90,
    location := "l", engineStatus := "Running" }

/-- A state with two registered vehicles `"A"` and `"B"` and no
telemetry. -/
def cs5 : SysState :=
  { vehicles := fun v => v == "A" || v == "B"
    telemetryData := fun v => if v == "A" || v == "B" then some [] else none
    alerts := []
    nextId := 0
    clock := 0 }

/-- A three-record batch whose middle record references the unregistered
vehicle `"C"`. -/
def c5records : List (String × TelemIn) :=
  [("A", inp1), ("C", inp2), ("B", inpFuel)]

/-! ### C8: the spec's Analytics Aggregator (absent from the source) -/

/-- Modelled from the spec: the projection of a stored reading the distance
computation needs — capture timestamp and the optional odometer field
(§3; no Analytics Aggregator or odometer field exists in
`src/javascriptcode.js`). -/
structure OdoReading where
  timestamp : Nat
  odometer : Option Int
deriving DecidableEq, Repr

/-- Ascending timestamp order on analytics readings. -/
def odoAsc : OdoReading → OdoReading → Prop :=
  fun a b => a.timestamp ≤ b.timestamp

instance : DecidableRel odoAsc :=
  fun a b => Nat.decLe a.timestamp b.timestamp

instance : IsTotal OdoReading odoAsc :=
  ⟨fun a b => Nat.le_total a.timestamp b.timestamp⟩

instance : IsTrans OdoReading odoAsc :=
  ⟨fun _ _ _ h1 h2 => Nat.le_trans h1 h2⟩

/-- Modelled from the spec: the sum of deltas between consecutive odometer
values in which a negative delta (odometer anomaly) is skipped, not
subtracted (§4.4, §7). -/
def posDeltaSum : List Int → Int
  | a :: b :: rest => (if a ≤ b then b - a else 0) + posDeltaSum (b :: rest)
  | _ => 0

/-- Modelled from the spec: one vehicle's distance over the window
`[wlo, whi]` — its in-window readings ordered by timestamp, odometer
values taken where present, positive deltas summed (§4.4
`totalDistance`). -/
def vehicleDistance (wlo whi : Nat) (rs : List OdoReading) : Int :=
  posDeltaSum
    ((List.insertionSort odoAsc
        (rs.filter fun r => wlo ≤ r.timestamp && r.timestamp ≤ whi)).filterMap
      fun r => r.odometer)

/-- Modelled from the spec: fleet distance — per-vehicle distances summed
across the fleet (§4.4 `totalDistance`). -/
def totalDistance (wlo whi : Nat) (fleet : List (List OdoReading)) : Int :=
  (fleet.map (vehicleDistance wlo whi)).sum

/-- The §8 example history: in-window odometer readings
100, 150, 120, 200. -/
def odoExample : List OdoReading :=
  [⟨1, some 100⟩, ⟨2, some 150⟩, ⟨3, some 120⟩, ⟨4, some 200⟩]

/-! ### The transition system of the service (for the orphan-alert claim) -/

/-- One state-mutating request, as handled by the routes above (the
read-only routes — vehicle/alert GETs and the latest query — do not change
the state and are omitted; the history route is included because its
in-place sort writes to the store). -/
inductive Step : SysState → SysState → Prop where
  | create (s : SysState) (vin : String) : Step s (createVehicle s vin).1
  | ingest (s : SysState) (vin : String) (body : TelemIn) :
      Step s (postTelemetry s vin body).1
  | batch (s : SysState) (records : List (String × TelemIn)) :
      Step s (postTelemetryBatch s records).1
  | history (s : SysState) (vin : String) (limit offset : Option Nat) :
      Step s (historyQuery s vin limit offset).1
  | updateAlert (s : SysState) (alertId : Nat) (newStatus : String) :
      Step s (putAlertStatus s alertId newStatus).1
  | delete (s : SysState) (vin : String) : Step s (deleteVehicle s vin).1

/-- States the process can reach from startup through any request
sequence. -/
inductive Reachable : SysState → Prop where
  | init : Reachable initState
  | step (s s2 : SysState) : Reachable s → Step s s2 → Reachable s2

/-- One state-mutating request other than vehicle deletion. -/
inductive StepND : SysState → SysState → Prop where
  | create (s : SysState) (vin : String) : StepND s (createVehicle s vin).1
  | ingest (s : SysState) (vin : String) (body : TelemIn) :
      StepND s (postTelemetry s vin body).1
  | batch (s : SysState) (records : List (String × TelemIn)) :
      StepND s (postTelemetryBatch s records).1
  | history (s : SysState) (vin : String) (limit offset : Option Nat) :
      StepND s (historyQuery s vin limit offset).1
  | updateAlert (s : SysState) (alertId : Nat) (newStatus : String) :
      StepND s (putAlertStatus s alertId newStatus).1

/-- States reachable without ever deleting a vehicle. -/
inductive ReachableND : SysState → Prop where
  | init : ReachableND initState
  | step (s s2 : SysState) : ReachableND s → StepND s s2 → ReachableND s2

/-- No orphan alerts: every ledger entry's VIN still has, in the telemetry
store, a reading that produces exactly this alert's content. -/
def noOrphans (s : SysState) : Prop :=
  ∀ a ∈ s.alerts, ∃ r ∈ (s.telemetryData a.vin).getD [],
    a.core ∈ generateAlertCores r

/-- The inductive strengthening of `noOrphans`: the alert's vehicle is
moreover still registered. -/
def AlertInv (s : SysState) : Prop :=
  ∀ a ∈ s.alerts, s.vehicles a.vin = true ∧
    ∃ r ∈ (s.telemetryData a.vin).getD [], a.core ∈ generateAlertCores r

/-- The state after registering vehicle `"VINX"`. -/
def s9a : SysState := (createVehicle initState "VINX").1

/-- The state after then ingesting a speeding reading for `"VINX"`
(one speed alert is now in the ledger). -/
def s9b : SysState := (postTelemetry s9a "VINX" inp1).1

/-- The state after then deleting vehicle `"VINX"`: its readings are gone
from the store, the alert is still in the ledger. -/
def sOrphan : SysState := (deleteVehicle s9b "VINX").1

/-! ### Theorems -/

/-! ### Basic lemmas about `generateAlerts` -/

/-- The generated alerts' contents are exactly `generateAlertCores`. -/
theorem generateAlerts_map_core (s : SysState) (t : TelemetryRecord) :
    ((generateAlerts s t).2).map Alert.core = generateAlertCores t := by
  unfold generateAlerts generateAlertCores pushAlertAcc
  cases hs : speedCheck t <;> cases hf : fuelCheck t <;>
    cases hb : batteryCheck t <;>
      simp [Alert.core, speedCore, fuelCore, batteryCore]

/-- `generateAlerts` does not touch the vehicle registry. -/
theorem generateAlerts_vehicles (s : SysState) (t : TelemetryRecord) :
    (generateAlerts s t).1.vehicles = s.vehicles := by
  unfold generateAlerts pushAlertAcc
  cases hs : speedCheck t <;> cases hf : fuelCheck t <;>
    cases hb : batteryCheck t <;> simp

/-- `generateAlerts` does not touch the telemetry store. -/
theorem generateAlerts_telemetryData (s : SysState) (t : TelemetryRecord) :
    (generateAlerts s t).1.telemetryData = s.telemetryData := by
  unfold generateAlerts pushAlertAcc
  cases hs : speedCheck t <;> cases hf : fuelCheck t <;>
    cases hb : batteryCheck t <;> simp

/-- `generateAlerts` appends exactly the generated alerts to the ledger. -/
theorem generateAlerts_alerts (s : SysState) (t : TelemetryRecord) :
    (generateAlerts s t).1.alerts = s.alerts ++ (generateAlerts s t).2 := by
  unfold generateAlerts pushAlertAcc
  cases hs : speedCheck t <;> cases hf : fuelCheck t <;>
    cases hb : batteryCheck t <;> simp

/-- The clock never decreases across `generateAlerts`. -/
theorem generateAlerts_clock_le (s : SysState) (t : TelemetryRecord) :
    s.clock ≤ (generateAlerts s t).1.clock := by
  unfold generateAlerts pushAlertAcc
  cases hs : speedCheck t <;> cases hf : fuelCheck t <;>
    cases hb : batteryCheck t <;> simp <;> omega

/-- Every alert content a reading produces carries that reading's VIN. -/
theorem generateAlertCores_vin (t : TelemetryRecord) :
    ∀ c ∈ generateAlertCores t, c.vin = t.vin := by
  intro c hc
  unfold generateAlertCores at hc
  cases hs : speedCheck t <;> cases hf : fuelCheck t <;>
    cases hb : batteryCheck t <;> simp [hs, hf, hb] at hc <;>
      rcases hc with h | h | h <;>
        simp_all [speedCore, fuelCore, batteryCore]

/-- C3: a reading with speed 85, fuel 50, battery 50 produces, in any state,
exactly one alert — the SpeedViolation with severity High — and in general
the alerts produced for a reading are the independent concatenation of the
three rules' firings, in speed/fuel/battery order. -/
theorem c3_speed_only_and_rule_order :
    (∀ s : SysState, ((generateAlerts s t85).2).map Alert.core = [speedCore t85])
    ∧ (speedCore t85).type = "SPEED_VIOLATION"
    ∧ (speedCore t85).severity = "High"
    ∧ ∀ (s : SysState) (t : TelemetryRecord),
        ((generateAlerts s t).2).map Alert.core =
          (if speedCheck t then [speedCore t] else []) ++
            (if fuelCheck t then [fuelCore t] else []) ++
              (if batteryCheck t then [batteryCore t] else []) := by
  refine ⟨fun s => ?_, rfl, rfl, fun s t => ?_⟩
  · rw [generateAlerts_map_core]; rfl
  · rw [generateAlerts_map_core]; rfl

/-- C4: a reading whose fuel and battery levels are both absent (`null` or
missing) yields no LowFuel and no LowBattery alert in any state, whatever
its speed; and a reading with fuel 10, battery absent, speed 30 yields
exactly one alert, the LowFuel one. -/
theorem c4_absent_levels (s : SysState) (t : TelemetryRecord)
    (hf : t.fuelLevel = JsVal.null ∨ t.fuelLevel = JsVal.undef)
    (hb : t.batteryLevel = JsVal.null ∨ t.batteryLevel = JsVal.undef) :
    (∀ a ∈ (generateAlerts s t).2,
        a.type ≠ "LOW_FUEL" ∧ a.type ≠ "LOW_BATTERY")
    ∧ ∀ s2 : SysState,
        ((generateAlerts s2 t10).2).map Alert.core = [fuelCore t10] := by
  constructor
  · intro a ha
    have hcore : a.core ∈ generateAlertCores t := by
      rw [← generateAlerts_map_core s t]
      exact List.mem_map_of_mem Alert.core ha
    have hfc : fuelCheck t = false := by
      rcases hf with h | h <;> simp [fuelCheck, h, jsLT]
    have hbc : batteryCheck t = false := by
      rcases hb with h | h <;> simp [batteryCheck, h, jsLT]
    unfold generateAlertCores at hcore
    rw [hfc, hbc] at hcore
    simp at hcore
    cases hsp : speedCheck t with
    | true =>
        rw [hsp] at hcore
        simp at hcore
        have htype : a.type = (Alert.core a).type := rfl
        rw [htype, hcore]
        exact ⟨by simp [speedCore], by simp [speedCore]⟩
    | false =>
        rw [hsp] at hcore
        simp at hcore
  · intro s2
    rw [generateAlerts_map_core]
    rfl

/-- Witness for C4 at a concrete speeding reading with both levels
missing. -/
theorem c4_absent_levels_w :
    (∀ a ∈ (generateAlerts initState tAbs).2,
        a.type ≠ "LOW_FUEL" ∧ a.type ≠ "LOW_BATTERY")
    ∧ ∀ s2 : SysState,
        ((generateAlerts s2 t10).2).map Alert.core = [fuelCore t10] :=
  c4_absent_levels initState tAbs (Or.inr rfl) (Or.inr rfl)

/-- Counterexample for C7: under a supplied configuration with
`speedLimit = 100` a configurable engine fires nothing at speed 85, yet
the code still fires the speed alert — its comparison is the constant 80,
not a configured value; the code accepts no configuration object. -/
theorem c7_counterexample :
    generateAlertCoresCfg
        { speedLimit := 100, lowFuelThreshold := 15,
          lowBatteryThreshold := 15 } t85 = []
    ∧ ((generateAlerts initState t85).2).map Alert.core = [speedCore t85] := by
  constructor
  · rfl
  · rw [generateAlerts_map_core]; rfl

/-- C7 (amended): the thresholds in `generateAlerts` are the hardcoded
constants 80, 15 and 15; the function takes no configuration, and its
behaviour coincides with the spec's configurable engine exactly at the
default configuration. -/
theorem c7_amended_hardcoded_defaults (s : SysState) (t : TelemetryRecord) :
    ((generateAlerts s t).2).map Alert.core =
      generateAlertCoresCfg defaultRuleConfig t := by
  rw [generateAlerts_map_core]
  rfl

/-- C6: updating the status of an absent alert id fails with NotFound and
leaves the whole state unchanged; for a present id, any current status may
move to any truthy status string — the update is accepted with no
state-machine restriction. -/
theorem c6_update_status (s : SysState) (alertId : Nat) (newStatus : String) :
    (s.alerts.find? (fun a => a.id = alertId) = none →
      putAlertStatus s alertId newStatus = (s, .error .notFound))
    ∧ ∀ a, s.alerts.find? (fun a2 => a2.id = alertId) = some a →
        newStatus ≠ "" →
        (putAlertStatus s alertId newStatus).2 =
          .ok { a with status := newStatus } ∧
        (putAlertStatus s alertId newStatus).1.alerts =
          s.alerts.map (fun b =>
            if b.id = alertId then { a with status := newStatus } else b) := by
  constructor
  · intro h
    unfold putAlertStatus
    rw [h]
  · intro a ha hst
    unfold putAlertStatus
    rw [ha]
    simp [hst]

/-- Witness for C6: id 5 is absent (NotFound, state untouched); id 0 is
present and moves from Resolved back to Acknowledged. -/
theorem c6_update_status_w :
    putAlertStatus sLedger 5 "Acknowledged" = (sLedger, .error .notFound)
    ∧ (putAlertStatus sLedger 0 "Acknowledged").2 =
        .ok { id := 0, vin := "VIN1", type := "SPEED_VIOLATION",
              message := "m", severity := "High", timestamp := 0,
              status := "Acknowledged" } :=
  ⟨(c6_update_status sLedger 5 "Acknowledged").1 rfl,
    ((c6_update_status sLedger 0 "Acknowledged").2
      { id := 0, vin := "VIN1", type := "SPEED_VIOLATION", message := "m",
        severity := "High", timestamp := 0, status := "Resolved" }
      rfl (by simp)).1⟩


/-! ### Lemmas about `ingestOne` -/

/-- Ingestion never changes the vehicle registry. -/
theorem ingestOne_vehicles (s : SysState) (vin : String) (body : TelemIn) :
    (ingestOne s vin body).1.vehicles = s.vehicles := by
  unfold ingestOne
  cases h : s.vehicles vin with
  | false => simp [h]
  | true => simp [h, generateAlerts_vehicles, appendTelemetry]

/-- Ingestion for an unregistered VIN is rejected and changes nothing. -/
theorem ingestOne_unknown (s : SysState) (vin : String) (body : TelemIn)
    (h : s.vehicles vin = false) :
    ingestOne s vin body = (s, .error .unknownVehicle) := by
  unfold ingestOne
  simp [h]

/-- Successful ingestion appends the freshly created record at the end of
the vehicle's stored history. -/
theorem ingestOne_telemetry_self (s : SysState) (vin : String)
    (body : TelemIn) (h : s.vehicles vin = true) :
    (ingestOne s vin body).1.telemetryData vin =
      some ((s.telemetryData vin).getD [] ++ [mkRecord s vin body]) := by
  unfold ingestOne
  simp [h, generateAlerts_telemetryData, appendTelemetry]

/-- Ingestion leaves other vehicles' histories untouched. -/
theorem ingestOne_telemetry_other (s : SysState) (vin : String)
    (body : TelemIn) (w : String) (hw : w ≠ vin) :
    (ingestOne s vin body).1.telemetryData w = s.telemetryData w := by
  unfold ingestOne
  cases h : s.vehicles vin with
  | false => simp [h]
  | true => simp [h, generateAlerts_telemetryData, appendTelemetry, hw]

/-- The clock never decreases across ingestion. -/
theorem ingestOne_clock_le (s : SysState) (vin : String) (body : TelemIn) :
    s.clock ≤ (ingestOne s vin body).1.clock := by
  unfold ingestOne
  cases h : s.vehicles vin with
  | false => simp [h]
  | true =>
      simp only [h, if_true]
      have := generateAlerts_clock_le
        (appendTelemetry { s with nextId := s.nextId + 1, clock := s.clock + 1 }
          vin (mkRecord s vin body)) (mkRecord s vin body)
      simp [appendTelemetry] at this ⊢
      omega

/-- Ingestion preserves the clock bound on stored timestamps. -/
theorem ingestOne_clockOK (s : SysState) (vin : String) (body : TelemIn)
    (h : clockOK s) : clockOK (ingestOne s vin body).1 := by
  intro v r hr
  have hclk := ingestOne_clock_le s vin body
  cases hveh : s.vehicles vin with
  | false => rw [ingestOne_unknown s vin body hveh] at hr hclk ⊢; exact h v r hr
  | true =>
      have hclk2 : s.clock + 1 ≤ (ingestOne s vin body).1.clock := by
        unfold ingestOne
        simp only [hveh, if_true]
        have := generateAlerts_clock_le
          (appendTelemetry
            { s with nextId := s.nextId + 1, clock := s.clock + 1 }
            vin (mkRecord s vin body)) (mkRecord s vin body)
        simp [appendTelemetry] at this ⊢
        omega
      by_cases hv : v = vin
      · subst hv
        rw [ingestOne_telemetry_self s v body hveh] at hr
        simp at hr
        rcases hr with hr | hr
        · have := h v r hr; omega
        · rw [hr]; simp [mkRecord]; omega
      · rw [ingestOne_telemetry_other s vin body v hv] at hr
        have := h v r hr; omega

/-- C1: for a known vehicle, the history query returns that vehicle's
stored readings (a permutation of them) in non-increasing timestamp order;
a present `offset` drops that many readings from the newest end, a present
`limit` caps the returned count, and an absent one applies no bound. -/
theorem c1_history_sorted_paginated (s : SysState) (vin : String)
    (hknown : s.vehicles vin = true) :
    ∃ full : List TelemetryRecord,
      (historyQuery s vin none none).2 =
        .ok (full, ((s.telemetryData vin).getD []).length)
      ∧ full.Perm ((s.telemetryData vin).getD [])
      ∧ full.Pairwise (fun a b => b.timestamp ≤ a.timestamp)
      ∧ (∀ l o : Nat, (historyQuery s vin (some l) (some o)).2 =
          .ok ((full.drop o).take l, ((s.telemetryData vin).getD []).length))
      ∧ (∀ l : Nat, (historyQuery s vin (some l) none).2 =
          .ok (full.take l, ((s.telemetryData vin).getD []).length))
      ∧ (∀ o : Nat, (historyQuery s vin none (some o)).2 =
          .ok (full.drop o, ((s.telemetryData vin).getD []).length)) := by
  cases harr : s.telemetryData vin with
  | none =>
      refine ⟨[], ?_, ?_, ?_, ?_, ?_, ?_⟩ <;>
        simp [historyQuery, hknown, harr]
  | some arr =>
      refine ⟨List.insertionSort tsDesc arr, ?_, ?_, ?_, ?_, ?_, ?_⟩
      · simp [historyQuery, hknown, harr]
      · simpa using List.perm_insertionSort tsDesc arr
      · exact List.sorted_insertionSort tsDesc arr
      · intro l o; simp [historyQuery, hknown, harr]
      · intro l; simp [historyQuery, hknown, harr]
      · intro o; simp [historyQuery, hknown, harr]

/-- Witness for C1 at a concrete state whose history for `"A"` holds three
readings stored out of timestamp order. -/
theorem c1_history_sorted_paginated_w :
    ∃ full : List TelemetryRecord,
      (historyQuery csHist "A" none none).2 =
        .ok (full, ((csHist.telemetryData "A").getD []).length)
      ∧ full.Perm ((csHist.telemetryData "A").getD [])
      ∧ full.Pairwise (fun a b => b.timestamp ≤ a.timestamp)
      ∧ (∀ l o : Nat, (historyQuery csHist "A" (some l) (some o)).2 =
          .ok ((full.drop o).take l,
            ((csHist.telemetryData "A").getD []).length))
      ∧ (∀ l : Nat, (historyQuery csHist "A" (some l) none).2 =
          .ok (full.take l, ((csHist.telemetryData "A").getD []).length))
      ∧ (∀ o : Nat, (historyQuery csHist "A" none (some o)).2 =
          .ok (full.drop o, ((csHist.telemetryData "A").getD []).length)) :=
  c1_history_sorted_paginated csHist "A" rfl

/-! ### Lemmas about `ingestMany` -/

/-- Appending one more submission is one more ingestion at the end. -/
theorem ingestMany_append (s : SysState) (vin : String)
    (inputs : List TelemIn) (inp : TelemIn) :
    ingestMany s vin (inputs ++ [inp]) =
      (postTelemetry (ingestMany s vin inputs) vin inp).1 := by
  simp [ingestMany, List.foldl_append]

/-- A run of ingestions never changes the vehicle registry. -/
theorem ingestMany_vehicles (s : SysState) (vin : String)
    (inputs : List TelemIn) :
    (ingestMany s vin inputs).vehicles = s.vehicles := by
  induction inputs generalizing s with
  | nil => rfl
  | cons i rest ih =>
      show (ingestMany (postTelemetry s vin i).1 vin rest).vehicles =
        s.vehicles
      rw [ih]
      exact ingestOne_vehicles s vin i

/-- A run of ingestions preserves the clock bound on stored timestamps. -/
theorem ingestMany_clockOK (s : SysState) (vin : String)
    (inputs : List TelemIn) (h : clockOK s) :
    clockOK (ingestMany s vin inputs) := by
  induction inputs generalizing s with
  | nil => exact h
  | cons i rest ih =>
      show clockOK (ingestMany (postTelemetry s vin i).1 vin rest)
      exact ih _ (ingestOne_clockOK s vin i h)

/-- C2: for a known vehicle with no stored readings the latest query
signals NoData; and after any run of submissions ending with `inp`, the
latest query returns precisely the record created from `inp` — the reading
with the strictly greatest timestamp. -/
theorem c2_latest_returns_last (s : SysState) (vin : String)
    (hknown : s.vehicles vin = true) :
    ((s.telemetryData vin).getD [] = [] →
      latestQuery s vin = .error .noData)
    ∧ ∀ (inputs : List TelemIn) (inp : TelemIn), clockOK s →
        ∃ r : TelemetryRecord,
          latestQuery (ingestMany s vin (inputs ++ [inp])) vin = .ok r
          ∧ r = mkRecord (ingestMany s vin inputs) vin inp
          ∧ r.speed = inp.speed ∧ r.fuelLevel = inp.fuelLevel
          ∧ r.batteryLevel = inp.batteryLevel ∧ r.vin = vin
          ∧ ∀ r2 ∈
              ((ingestMany s vin (inputs ++ [inp])).telemetryData vin).getD [],
              r2 = r ∨ r2.timestamp < r.timestamp := by
  constructor
  · intro h
    unfold latestQuery
    simp [hknown, h]
  · intro inputs inp hck
    have hv : (ingestMany s vin inputs).vehicles vin = true := by
      rw [ingestMany_vehicles]; exact hknown
    have hckN : clockOK (ingestMany s vin inputs) :=
      ingestMany_clockOK s vin inputs hck
    have happ : ingestMany s vin (inputs ++ [inp]) =
        (ingestOne (ingestMany s vin inputs) vin inp).1 :=
      ingestMany_append s vin inputs inp
    refine ⟨mkRecord (ingestMany s vin inputs) vin inp,
      ?_, rfl, rfl, rfl, rfl, rfl, ?_⟩
    · rw [happ]
      have hvz : (ingestOne (ingestMany s vin inputs) vin inp).1.vehicles vin
          = true := by rw [ingestOne_vehicles]; exact hv
      unfold latestQuery
      rw [ingestOne_telemetry_self _ vin inp hv]
      simp [hvz]
    · intro r2 hr2
      rw [happ, ingestOne_telemetry_self _ vin inp hv] at hr2
      simp at hr2
      rcases hr2 with h | h
      · right
        have := hckN vin r2 h
        simpa [mkRecord] using this
      · left; exact h

/-- Witness for C2: the empty history answers NoData; after submitting
`inp1` then `inp2` the latest query returns the record created from
`inp2`. -/
theorem c2_latest_returns_last_w :
    latestQuery csEmpty "A" = .error .noData
    ∧ ∃ r : TelemetryRecord,
        latestQuery (ingestMany csEmpty "A" ([inp1] ++ [inp2])) "A" = .ok r
        ∧ r = mkRecord (ingestMany csEmpty "A" [inp1]) "A" inp2
        ∧ r.speed = inp2.speed ∧ r.fuelLevel = inp2.fuelLevel
        ∧ r.batteryLevel = inp2.batteryLevel ∧ r.vin = "A"
        ∧ ∀ r2 ∈
            ((ingestMany csEmpty "A" ([inp1] ++ [inp2])).telemetryData
              "A").getD [],
            r2 = r ∨ r2.timestamp < r.timestamp :=
  ⟨(c2_latest_returns_last csEmpty "A" rfl).1 rfl,
    (c2_latest_returns_last csEmpty "A" rfl).2 [inp1] inp2
      (by intro v r hr; by_cases h : v = "A" <;> simp [csEmpty, h] at hr)⟩

/-- The history route sorts the stored array in place: afterwards the
store holds the descending sort, and the registry is untouched. -/
theorem historyQuery_writes_sorted (s : SysState) (vin : String)
    (arr : List TelemetryRecord) (limit offset : Option Nat)
    (hknown : s.vehicles vin = true)
    (harr : s.telemetryData vin = some arr) :
    (historyQuery s vin limit offset).1.telemetryData vin =
      some (List.insertionSort tsDesc arr)
    ∧ (historyQuery s vin limit offset).1.vehicles = s.vehicles := by
  unfold historyQuery
  simp [hknown, harr]

/-- The descending stable sort of a strictly-increasing history is its
reversal. -/
theorem insertionSort_strict_inc_reverse (l : List TelemetryRecord)
    (hinc : l.Pairwise (fun a b => a.timestamp < b.timestamp)) :
    List.insertionSort tsDesc l = l.reverse := by
  have hperm : (List.insertionSort tsDesc l).Perm l.reverse :=
    (List.perm_insertionSort tsDesc l).trans l.reverse_perm.symm
  have hne : l.Pairwise (fun a b => a.timestamp ≠ b.timestamp) :=
    hinc.imp fun h => Nat.ne_of_lt h
  have hneS : (List.insertionSort tsDesc l).Pairwise
      (fun a b => a.timestamp ≠ b.timestamp) :=
    ((List.perm_insertionSort tsDesc l).pairwise_iff
      fun h => Ne.symm h).mpr hne
  have hsorted : (List.insertionSort tsDesc l).Pairwise tsDesc :=
    List.sorted_insertionSort tsDesc l
  have hstrict : (List.insertionSort tsDesc l).Pairwise tsLT :=
    (hsorted.and hneS).imp fun h =>
      Nat.lt_of_le_of_ne h.1 (Ne.symm h.2)
  have hrevStrict : l.reverse.Pairwise tsLT := by
    rw [List.pairwise_reverse]
    exact hinc
  exact List.eq_of_perm_of_sorted hperm hstrict hrevStrict

/-- C10: the history query is not read-only — it writes the descending
sort back into the store, so for a vehicle whose at-least-two readings were
appended in strictly increasing timestamp order, a latest query issued
right after a history query returns the earliest reading (the new last
element), which is not the stored array's former last element. -/
theorem c10_history_breaks_latest (s : SysState) (vin : String)
    (r0 : TelemetryRecord) (rest : List TelemetryRecord)
    (hknown : s.vehicles vin = true)
    (harr : s.telemetryData vin = some (r0 :: rest))
    (hne : rest ≠ [])
    (hinc : (r0 :: rest).Pairwise (fun a b => a.timestamp < b.timestamp)) :
    latestQuery (historyQuery s vin none none).1 vin = .ok r0
    ∧ (r0 :: rest).getLast? ≠ some r0 := by
  have hsort : List.insertionSort tsDesc (r0 :: rest) = (r0 :: rest).reverse :=
    insertionSort_strict_inc_reverse _ hinc
  constructor
  · have hgen := historyQuery_writes_sorted s vin (r0 :: rest) none none
      hknown harr
    have hstate : (historyQuery s vin none none).1.telemetryData vin =
        some ((r0 :: rest).reverse) := by
      rw [hgen.1, hsort]
    have hveh : (historyQuery s vin none none).1.vehicles vin = true := by
      rw [hgen.2]
      exact hknown
    unfold latestQuery
    rw [hstate]
    simp [hveh, List.getLast?_reverse]
  · have hmem : ∀ x ∈ rest, r0.timestamp < x.timestamp :=
      (List.pairwise_cons.mp hinc).1
    rcases rest with _ | ⟨r1, rest2⟩
    · exact absurd rfl hne
    · intro hcon
      rw [List.getLast?_cons_cons,
        List.getLast?_eq_getLast_of_ne_nil (List.cons_ne_nil r1 rest2)]
        at hcon
      have heq : (r1 :: rest2).getLast (List.cons_ne_nil r1 rest2) = r0 :=
        Option.some.inj hcon
      have hl := List.getLast_mem (List.cons_ne_nil r1 rest2)
      have hlt := hmem _ hl
      rw [heq] at hlt
      omega

/-- Witness for C10 at a concrete two-reading history appended in
increasing timestamp order. -/
theorem c10_history_breaks_latest_w :
    latestQuery (historyQuery cs10 "A" none none).1 "A" = .ok rEarly
    ∧ ([rEarly, rLate] : List TelemetryRecord).getLast? ≠ some rEarly := by
  have h := c10_history_breaks_latest cs10 "A" rEarly [rLate] rfl rfl
    (by simp) (by simp [rEarly, rLate])
  simpa using h

/-- Every alert generated for a reading carries that reading's VIN. -/
theorem generateAlerts_vins (s : SysState) (t : TelemetryRecord) :
    ∀ a ∈ (generateAlerts s t).2, a.vin = t.vin := by
  intro a ha
  have hcore : a.core ∈ generateAlertCores t := by
    rw [← generateAlerts_map_core s t]
    exact List.mem_map_of_mem Alert.core ha
  exact generateAlertCores_vin t a.core hcore

/-- The shape of a successful ingestion: the created record together with
its generated alerts, all carrying the submitted VIN. -/
theorem ingestOne_ok_shape (s : SysState) (vin : String) (body : TelemIn)
    (h : s.vehicles vin = true) :
    ∃ tel gen,
      ingestOne s vin body = ((ingestOne s vin body).1, .ok (tel, gen))
      ∧ ∀ a ∈ gen, a.vin = vin := by
  refine ⟨mkRecord s vin body,
    (generateAlerts
      (appendTelemetry
        { s with nextId := s.nextId + 1, clock := s.clock + 1 }
        vin (mkRecord s vin body))
      (mkRecord s vin body)).2, ?_, ?_⟩
  · unfold ingestOne
    simp [h]
  · intro a ha
    exact generateAlerts_vins _ _ a ha

/-- The batch fold, relative to an arbitrary accumulator: each input
record contributes exactly one result item, reporting success exactly for
registered VINs, and every flattened alert stems from a successful
record. -/
theorem batch_aux (s : SysState) (records : List (String × TelemIn)) :
    ∀ (st : SysState) (resAcc : List (String × Option TelemetryRecord))
      (alAcc : List Alert), st.vehicles = s.vehicles →
      ∃ newRes newAl,
        (records.foldl batchStep (st, resAcc, alAcc)).2.1 = resAcc ++ newRes
        ∧ (records.foldl batchStep (st, resAcc, alAcc)).2.2 = alAcc ++ newAl
        ∧ (records.foldl batchStep (st, resAcc, alAcc)).1.vehicles =
            s.vehicles
        ∧ List.Forall₂ (fun rec res =>
            res.1 = rec.1 ∧ res.2.isSome = s.vehicles rec.1) records newRes
        ∧ ∀ a ∈ newAl, ∃ rec ∈ records,
            s.vehicles rec.1 = true ∧ a.vin = rec.1 := by
  induction records with
  | nil =>
      intro st resAcc alAcc hveh
      exact ⟨[], [], by simp, by simp, by simpa using hveh, .nil, by simp⟩
  | cons rec rest ih =>
      intro st resAcc alAcc hveh
      cases hv : st.vehicles rec.1 with
      | false =>
          have hstep : batchStep (st, resAcc, alAcc) rec =
              (st, resAcc ++ [(rec.1, none)], alAcc) := by
            unfold batchStep
            rw [ingestOne_unknown st rec.1 rec.2 hv]
          rw [List.foldl_cons, hstep]
          obtain ⟨newRes, newAl, h1, h2, h3, h4, h5⟩ :=
            ih st (resAcc ++ [(rec.1, none)]) alAcc hveh
          refine ⟨(rec.1, none) :: newRes, newAl, ?_, h2, h3, ?_, ?_⟩
          · rw [h1]; simp
          · exact List.Forall₂.cons ⟨rfl, by simp [← hveh, hv]⟩ h4
          · intro a ha
            obtain ⟨r2, hr2, hx⟩ := h5 a ha
            exact ⟨r2, List.mem_cons_of_mem _ hr2, hx⟩
      | true =>
          obtain ⟨tel, gen, hshape, hvins⟩ :=
            ingestOne_ok_shape st rec.1 rec.2 hv
          have hstep : batchStep (st, resAcc, alAcc) rec =
              ((ingestOne st rec.1 rec.2).1,
                resAcc ++ [(rec.1, some tel)], alAcc ++ gen) := by
            unfold batchStep
            rw [hshape]
          rw [List.foldl_cons, hstep]
          have hveh2 : (ingestOne st rec.1 rec.2).1.vehicles = s.vehicles := by
            rw [ingestOne_vehicles]; exact hveh
          obtain ⟨newRes, newAl, h1, h2, h3, h4, h5⟩ :=
            ih (ingestOne st rec.1 rec.2).1
              (resAcc ++ [(rec.1, some tel)]) (alAcc ++ gen) hveh2
          refine ⟨(rec.1, some tel) :: newRes, gen ++ newAl, ?_, ?_, h3, ?_, ?_⟩
          · rw [h1]; simp
          · rw [h2]; simp
          · exact List.Forall₂.cons ⟨rfl, by simp [← hveh, hv]⟩ h4
          · intro a ha
            rcases List.mem_append.mp ha with h | h
            · exact ⟨rec, List.mem_cons_self rec rest,
                by rw [← hveh]; exact hv, hvins a h⟩
            · obtain ⟨r2, hr2, hx⟩ := h5 a h
              exact ⟨r2, List.mem_cons_of_mem _ hr2, hx⟩

/-- C5: in a batch, an unknown VIN never aborts the run — every record is
reported individually (success exactly when its VIN is registered), and
the flattened alert list holds only alerts produced by successful records;
in particular, the concrete three-record batch with one unknown vehicle
yields two successes, one failure, and only the two successes' alerts. -/
theorem c5_batch_partial_failure :
    (∀ (s : SysState) (records : List (String × TelemIn)),
      List.Forall₂ (fun rec res =>
          res.1 = rec.1 ∧ res.2.isSome = s.vehicles rec.1)
        records (postTelemetryBatch s records).2.1
      ∧ ∀ a ∈ (postTelemetryBatch s records).2.2, ∃ rec ∈ records,
          s.vehicles rec.1 = true ∧ a.vin = rec.1)
    ∧ ((postTelemetryBatch cs5 c5records).2.1).map
        (fun res => (res.1, res.2.isSome)) =
      [("A", true), ("C", false), ("B", true)]
    ∧ ((postTelemetryBatch cs5 c5records).2.2).map Alert.vin = ["A", "B"]
    ∧ ((postTelemetryBatch cs5 c5records).2.2).map Alert.type =
      ["SPEED_VIOLATION", "LOW_FUEL"] := by
  refine ⟨fun s records => ?_, by decide, by decide, by decide⟩
  obtain ⟨newRes, newAl, h1, h2, _h3, h4, h5⟩ :=
    batch_aux s records s [] [] rfl
  constructor
  · show List.Forall₂ _ records (records.foldl batchStep (s, [], [])).2.1
    rw [h1]
    simpa using h4
  · intro a ha
    have ha2 : a ∈ (records.foldl batchStep (s, [], [])).2.2 := ha
    rw [h2] at ha2
    simp at ha2
    exact h5 a ha2

/-- C8: `totalDistance` sums, per vehicle, the positive odometer deltas of
consecutive in-window readings ordered by timestamp — each skipped
negative delta contributes 0, as the closed form over consecutive pairs
shows — and sums the per-vehicle distances across the fleet; the §8
example history [100, 150, 120, 200] contributes exactly 130. -/
theorem c8_total_distance :
    (∀ odos : List Int, posDeltaSum odos =
        ((odos.zip odos.tail).map fun p => max 0 (p.2 - p.1)).sum)
    ∧ (∀ (wlo whi : Nat) (fleet : List (List OdoReading)),
        totalDistance wlo whi fleet =
          (fleet.map (vehicleDistance wlo whi)).sum)
    ∧ vehicleDistance 0 10 odoExample = 130
    ∧ totalDistance 0 10 [odoExample] = 130 := by
  refine ⟨fun odos => ?_, fun _ _ _ => rfl, by decide, by decide⟩
  induction odos with
  | nil => rfl
  | cons a rest ih =>
      cases rest with
      | nil => rfl
      | cons b rest2 =>
          show (if a ≤ b then b - a else 0) + posDeltaSum (b :: rest2) = _
          rw [ih]
          simp only [List.zip_cons_cons, List.tail_cons, List.map_cons,
            List.sum_cons]
          have : (if a ≤ b then b - a else 0) = max 0 (b - a) := by
            split <;> omega
          omega

/-! ### Preservation of `AlertInv` by every non-delete request -/

/-- The state component of one batch iteration is the state component of
one ingestion. -/
theorem batchStep_state
    (acc : SysState × List (String × Option TelemetryRecord) × List Alert)
    (rec : String × TelemIn) :
    (batchStep acc rec).1 = (ingestOne acc.1 rec.1 rec.2).1 := by
  unfold batchStep
  rcases h : ingestOne acc.1 rec.1 rec.2 with ⟨s2, exc⟩
  cases exc <;> rfl

/-- Creating a vehicle preserves the alert invariant: it resets the
history only of a VIN that was unregistered, for which no alert can
exist. -/
theorem alertInv_create (s : SysState) (vin : String) (h : AlertInv s) :
    AlertInv (createVehicle s vin).1 := by
  unfold createVehicle
  cases hv : s.vehicles vin with
  | true => simpa using h
  | false =>
      intro a ha
      simp at ha
      obtain ⟨hveh, r, hr, hcore⟩ := h a ha
      have hne : a.vin ≠ vin := by
        intro he
        rw [he, hv] at hveh
        cases hveh
      refine ⟨by simp [hne, hveh], r, ?_, hcore⟩
      simpa [hne] using hr

/-- `generateAlerts` preserves the alert invariant when the evaluated
reading is stored under its own (registered) VIN. -/
theorem alertInv_generateAlerts (s : SysState) (t : TelemetryRecord)
    (h : AlertInv s) (hveh : s.vehicles t.vin = true)
    (hmem : t ∈ (s.telemetryData t.vin).getD []) :
    AlertInv (generateAlerts s t).1 := by
  intro a ha
  rw [generateAlerts_alerts] at ha
  rw [generateAlerts_vehicles, generateAlerts_telemetryData]
  rcases List.mem_append.mp ha with hold | hnew
  · exact h a hold
  · have havin : a.vin = t.vin := generateAlerts_vins s t a hnew
    have hcore : a.core ∈ generateAlertCores t := by
      rw [← generateAlerts_map_core s t]
      exact List.mem_map_of_mem Alert.core hnew
    rw [havin]
    exact ⟨hveh, t, hmem, hcore⟩

/-- Ingestion preserves the alert invariant. -/
theorem alertInv_ingestOne (s : SysState) (vin : String) (body : TelemIn)
    (h : AlertInv s) : AlertInv (ingestOne s vin body).1 := by
  cases hv : s.vehicles vin with
  | false => rw [ingestOne_unknown s vin body hv]; exact h
  | true =>
      have hstate : (ingestOne s vin body).1 =
          (generateAlerts
            (appendTelemetry
              { s with nextId := s.nextId + 1, clock := s.clock + 1 }
              vin (mkRecord s vin body))
            (mkRecord s vin body)).1 := by
        unfold ingestOne
        simp [hv]
      rw [hstate]
      apply alertInv_generateAlerts
      · intro a ha
        obtain ⟨hveh2, r, hr, hcore⟩ := h a ha
        refine ⟨hveh2, r, ?_, hcore⟩
        by_cases hav : a.vin = vin
        · subst hav
          simp [appendTelemetry]
          exact Or.inl hr
        · simpa [appendTelemetry, hav] using hr
      · simpa [appendTelemetry, mkRecord] using hv
      · simp [appendTelemetry, mkRecord]

/-- The batch route preserves the alert invariant. -/
theorem alertInv_batch (s : SysState) (records : List (String × TelemIn))
    (h : AlertInv s) : AlertInv (postTelemetryBatch s records).1 := by
  suffices hgen : ∀ acc : SysState ×
      List (String × Option TelemetryRecord) × List Alert,
      AlertInv acc.1 → AlertInv (records.foldl batchStep acc).1 by
    exact hgen (s, [], []) h
  induction records with
  | nil => intro acc hacc; exact hacc
  | cons rec rest ih =>
      intro acc hacc
      rw [List.foldl_cons]
      apply ih
      rw [batchStep_state]
      exact alertInv_ingestOne acc.1 rec.1 rec.2 hacc

/-- The history route preserves the alert invariant: its in-place sort
permutes the stored readings, losing none. -/
theorem alertInv_history (s : SysState) (vin : String)
    (limit offset : Option Nat) (h : AlertInv s) :
    AlertInv (historyQuery s vin limit offset).1 := by
  cases hv : s.vehicles vin with
  | false =>
      unfold historyQuery
      simpa [hv] using h
  | true =>
      cases harr : s.telemetryData vin with
      | none =>
          unfold historyQuery
          simpa [hv, harr] using h
      | some arr =>
          have hgen := historyQuery_writes_sorted s vin arr limit offset
            hv harr
          intro a ha
          have halerts : (historyQuery s vin limit offset).1.alerts =
              s.alerts := by
            unfold historyQuery
            simp [hv, harr]
          rw [halerts] at ha
          obtain ⟨hveh2, r, hr, hcore⟩ := h a ha
          refine ⟨by rw [hgen.2]; exact hveh2, ?_⟩
          by_cases hav : a.vin = vin
          · subst hav
            refine ⟨r, ?_, hcore⟩
            rw [hgen.1]
            have hmem : r ∈ arr := by
              rw [harr] at hr
              simpa using hr
            simpa using (List.perm_insertionSort tsDesc arr).mem_iff.mpr hmem
          · refine ⟨r, ?_, hcore⟩
            have hother : (historyQuery s vin limit offset).1.telemetryData
                a.vin = s.telemetryData a.vin := by
              unfold historyQuery
              simp [hv, harr, hav]
            rw [hother]
            exact hr

/-- A status update preserves the alert invariant: it rewrites only the
`status` field, which the alert's content does not include. -/
theorem alertInv_update (s : SysState) (alertId : Nat) (newStatus : String)
    (h : AlertInv s) : AlertInv (putAlertStatus s alertId newStatus).1 := by
  cases hfind : s.alerts.find? (fun a => a.id = alertId) with
  | none =>
      have hstate : (putAlertStatus s alertId newStatus).1 = s := by
        unfold putAlertStatus
        rw [hfind]
      rw [hstate]
      exact h
  | some a0 =>
      have ha0 : a0 ∈ s.alerts := List.mem_of_find?_eq_some hfind
      have hstate : (putAlertStatus s alertId newStatus).1 =
          { s with alerts := s.alerts.map (fun b =>
              if b.id = alertId
              then (if newStatus ≠ "" then { a0 with status := newStatus }
                else a0)
              else b) } := by
        unfold putAlertStatus
        rw [hfind]
      rw [hstate]
      intro a ha
      simp at ha
      obtain ⟨b, hb, hfb⟩ := ha
      by_cases hid : b.id = alertId
      · rw [hid] at hfb
        simp at hfb
        have hvin : a.vin = a0.vin := by
          rw [← hfb]
          split <;> rfl
        have hcore : a.core = a0.core := by
          rw [← hfb]
          split <;> rfl
        obtain ⟨hveh0, r, hr, hc0⟩ := h a0 ha0
        rw [hvin, hcore]
        exact ⟨hveh0, r, hr, hc0⟩
      · simp [hid] at hfb
        rw [← hfb]
        exact h b hb

/-- Every non-delete request preserves the alert invariant. -/
theorem stepND_alertInv (s s2 : SysState) (h : AlertInv s)
    (hstep : StepND s s2) : AlertInv s2 := by
  cases hstep with
  | create vin => exact alertInv_create s vin h
  | ingest vin body => exact alertInv_ingestOne s vin body h
  | batch records => exact alertInv_batch s records h
  | history vin limit offset => exact alertInv_history s vin limit offset h
  | updateAlert alertId newStatus =>
      exact alertInv_update s alertId newStatus h

/-- The alert invariant holds in every delete-free reachable state. -/
theorem reachableND_alertInv (s : SysState) (h : ReachableND s) :
    AlertInv s := by
  induction h with
  | init =>
      intro a ha
      simp [initState] at ha
  | step s s2 _ hstep ih => exact stepND_alertInv s s2 ih hstep

/-- C9 (amended): in every state reachable without vehicle deletion, every
alert's VIN still has a stored reading that produces exactly that alert's
content — there are no orphan alerts.  (Vehicle deletion breaks this, see
the counterexample.) -/
theorem c9_amended_no_orphans_without_delete (s : SysState)
    (h : ReachableND s) : noOrphans s := by
  intro a ha
  obtain ⟨_, r, hr, hcore⟩ := reachableND_alertInv s h a ha
  exact ⟨r, hr, hcore⟩

/-- Witness for the amended C9 at the delete-free trace «register `"VINX"`,
ingest a speeding reading». -/
theorem c9_amended_no_orphans_without_delete_w : noOrphans s9b :=
  c9_amended_no_orphans_without_delete s9b
    (ReachableND.step s9a s9b
      (ReachableND.step initState s9a ReachableND.init
        (StepND.create initState "VINX"))
      (StepND.ingest s9a "VINX" inp1))

/-- Counterexample for C9 as stated: after «register `"VINX"`, ingest a
speeding reading, delete `"VINX"`» — a reachable request sequence — the
speed alert is still in the ledger but the vehicle's readings are gone, an
orphan alert. -/
theorem c9_counterexample : ¬ ∀ s : SysState, Reachable s → noOrphans s := by
  intro hall
  have hreach : Reachable sOrphan :=
    Reachable.step s9b sOrphan
      (Reachable.step s9a s9b
        (Reachable.step initState s9a Reachable.init
          (Step.create initState "VINX"))
        (Step.ingest s9a "VINX" inp1))
      (Step.delete s9b "VINX")
  have hno := hall sOrphan hreach
  have hne : sOrphan.alerts ≠ [] := by decide
  obtain ⟨a, ha⟩ := List.exists_mem_of_ne_nil _ hne
  obtain ⟨r, hr, _⟩ := hno a ha
  have htel : ∀ v : String, sOrphan.telemetryData v = none := by
    intro v
    by_cases hv : v = "VINX"
    · subst hv
      decide
    · show (deleteVehicle s9b "VINX").1.telemetryData v = none
      have hdel : s9b.vehicles "VINX" = true := by decide
      unfold deleteVehicle
      simp [hdel, hv]
      show (ingestOne s9a "VINX" inp1).1.telemetryData v = none
      rw [ingestOne_telemetry_other s9a "VINX" inp1 v hv]
      show (createVehicle initState "VINX").1.telemetryData v = none
      have hc : initState.vehicles "VINX" = false := rfl
      unfold createVehicle
      simp [hc, hv]
      rfl
  rw [htel a.vin] at hr
  simp at hr

/-- Witness for C5's general part at the concrete three-record batch. -/
theorem c5_batch_partial_failure_w :
    List.Forall₂ (fun rec res =>
        res.1 = rec.1 ∧ res.2.isSome = cs5.vehicles rec.1)
      c5records (postTelemetryBatch cs5 c5records).2.1
    ∧ ∀ a ∈ (postTelemetryBatch cs5 c5records).2.2, ∃ rec ∈ c5records,
        cs5.vehicles rec.1 = true ∧ a.vin = rec.1 :=
  c5_batch_partial_failure.1 cs5 c5records
